import Mathlib

/-!
Verification of `chopper_controller.py` (Thorlabs optical chopper serial driver).

The driver is shallowly embedded: Python floats are modelled by `ℚ` (every
numeric literal in the driver and in the wire examples is a small terminating
decimal, and the driver only compares, parses and prints such values), the
serial transport is modelled by a scripted list of pending device replies plus
the list of bytes written so far, and exceptions are modelled by an explicit
error type.  Each operation returns the mutated controller state together with
an `Except` result, so that state mutations performed before an exception is
raised are kept, exactly as in Python.
-/

namespace ChopperModel

/-- Errors raised by the driver.  The Python code raises `ValueError` both for
an out-of-range set argument and for an unparsable reply; the spec names them
`RangeError` and `ParseError`, and `indexError` models the `IndexError` raised
by an out-of-bounds blade-table lookup. -/
inductive ChopErr where
  | rangeError (v : ℚ)
  | parseError
  | indexError
deriving DecidableEq

/-- Direction tag passed to `_log_write` (the Python code passes the strings
`"read"` / `"write"`; all call sites use these two literals). -/
inductive Mode where
  | read
  | write
deriving DecidableEq

/-- One element of `self.log_file`: the pair `(msg, date)` appended by
`_log_write`, where `msg` already carries the direction marker. -/
structure LogEntry where
  msg : String
  date : String
deriving DecidableEq

/-- The `Stat` namedtuple (`_state`): last observed value of each queryable
parameter, `none` when never observed (Python `None`). -/
structure StatTuple where
  status : Option ℚ
  intfreq : Option ℚ
  exfreq : Option ℚ
  blade : Option ℚ
  ref : Option ℚ
deriving DecidableEq

/-- The `_Range` namedtuple (`_control`): the currently active
(min, max) range for each settable parameter. -/
structure ControlTuple where
  intfreq : ℚ × ℚ
  blade : ℚ × ℚ
  ref : ℚ × ℚ
deriving DecidableEq

/-- The mutable state of a `CHOPPER` object together with its transport:
`pending` is the script of device replies not yet consumed (each
`ser.read(n)` pops the next one, truncated to `n` bytes), `written` is the
sequence of strings written to the serial port, `times` is the stream of
timestamp strings `datetime.now()` will return. -/
structure ChopperState where
  pending : List String
  written : List String
  log : Bool
  log_file : List LogEntry
  times : List String
  _Range : ControlTuple
  Stat : StatTuple
deriving DecidableEq

/-- `self._Bladerange` (line 123): internal-frequency range per blade index,
in the field order of the `_bladerange` namedtuple
(MC1F2, MC1F6, MC1F10, MC1F15, MC1F30, MC1F60, MC1F100, MC1F57). -/
def _Bladerange : List (ℚ × ℚ) :=
  [(1, 99), (0, 0), (20, 1000), (30, 1500), (60, 3000), (120, 6000), (0, 0), (10, 500)]

/-- `self._Range` as assigned on line 122 of `__init__`. -/
def default_Range : ControlTuple :=
  { intfreq := (1, 1000), blade := (0, 6), ref := (0, 1) }

/-- Python sequence indexing `l[i]` for an `int` index: non-negative indices
are checked against the length, negative indices count from the end, anything
else raises `IndexError` (modelled as `none`). -/
def pyGet (l : List (ℚ × ℚ)) (i : Int) : Option (ℚ × ℚ) :=
  if 0 ≤ i then l.get? i.toNat
  else if 0 ≤ (l.length : Int) + i then l.get? ((l.length : Int) + i).toNat
  else none

/-- Python `int()` applied to a float: truncation toward zero
(T-division of the numerator by the positive denominator). -/
def pyInt (q : ℚ) : Int :=
  q.num.tdiv (q.den : Int)

/-- Value of a digit string (most significant first). -/
def digitsToNat (ds : List Char) : Nat :=
  ds.foldl (fun a c => a * 10 + (c.toNat - 48)) 0

/-- Core of `float()`: the unsigned part of the grammar
`digits [. digits] | . digits`, optionally followed by an exponent
`(e|E) [+|-] digits`, with nothing after it.  Returns `none` when the string
is not of that form. -/
def pyFloatAux (cs : List Char) : Option ℚ :=
  let ip := cs.takeWhile Char.isDigit
  let r1 := cs.dropWhile Char.isDigit
  let fp := match r1 with
    | '.' :: t => t.takeWhile Char.isDigit
    | _ => []
  let r2 := match r1 with
    | '.' :: t => t.dropWhile Char.isDigit
    | _ => r1
  if ip.isEmpty && fp.isEmpty then none
  else
    let mantNum : Nat := digitsToNat ip * 10 ^ fp.length + digitsToNat fp
    let mantDen : Nat := 10 ^ fp.length
    match r2 with
    | [] => some (mkRat mantNum mantDen)
    | c :: t =>
      if c = 'e' || c = 'E' then
        let neg : Bool := match t with
          | '-' :: _ => true
          | _ => false
        let t2 := match t with
          | '-' :: u => u
          | '+' :: u => u
          | _ => t
        let ed := t2.takeWhile Char.isDigit
        let r3 := t2.dropWhile Char.isDigit
        if ed.isEmpty || !r3.isEmpty then none
        else if neg then some (mkRat mantNum (mantDen * 10 ^ digitsToNat ed))
        else some (mkRat (mantNum * 10 ^ digitsToNat ed) mantDen)
      else none

/-- Python `float(s)` on the decimal notations the device protocol uses:
surrounding whitespace is stripped, an optional sign is honoured, and the
remainder must be a decimal with optional fraction and exponent.  (The
special float spellings `inf`/`nan`, which no device reply or driver value
ever takes, are not modelled and parse as `none`.) -/
def pyFloat (s : String) : Option ℚ :=
  let cs := ((s.data.dropWhile Char.isWhitespace).reverse.dropWhile Char.isWhitespace).reverse
  match cs with
  | '+' :: t => pyFloatAux t
  | '-' :: t => (pyFloatAux t).map (fun q => -q)
  | t => pyFloatAux t

/-- Decimal digits of the fractional part of `q` (with `0 ≤ q < 1`),
up to the given fuel; terminates early when the remainder is zero. -/
def fracDigits : Nat → ℚ → String
  | 0, _ => ""
  | n + 1, q =>
    if q = 0 then ""
    else
      let d := ⌊q * 10⌋
      toString d ++ fracDigits n (q * 10 - (d : ℚ))

/-- Python `str()` of a float, for the terminating decimals the driver
handles (an integral value prints as `N.0`, exactly as in Python). -/
def pyStr (q : ℚ) : String :=
  let sgn := if q < 0 then "-" else ""
  let a := |q|
  let ip := ⌊a⌋
  let fr := fracDigits 17 (a - (ip : ℚ))
  sgn ++ toString ip ++ "." ++ (if fr = "" then "0" else fr)

/-- `self.ser.write(s)`: record the string on the wire. -/
def ser_write (st : ChopperState) (s : String) : ChopperState :=
  { st with written := st.written ++ [s] }

/-- `self.ser.read(n)`: pop the next scripted device reply, truncated to `n`
bytes; an empty script models a device that sends nothing before the
timeout (the read returns the empty string). -/
def ser_read (st : ChopperState) (n : Nat) : String × ChopperState :=
  (String.mk ((st.pending.headD "").data.take n), { st with pending := st.pending.tail })

/-- `CHOPPER._log_write` (lines 129-140): always consumes a timestamp
(`datetime.now()` is evaluated unconditionally); when logging is on, appends
`("<<< " + s, date)` or `(">>> " + s, date)` to `log_file`. -/
def _log_write (st : ChopperState) (s : String) (mode : Mode) : ChopperState :=
  let date := st.times.headD ""
  let st' := { st with times := st.times.tail }
  if st.log then
    { st' with
      log_file := st'.log_file ++
        [⟨(match mode with
           | Mode.read => "<<< " ++ s
           | Mode.write => ">>> " ++ s), date⟩] }
  else st'

/-- `CHOPPER.save_log` (lines 142-146): append every log line to the file,
formatted `"[{}] {}".format(msg, date)`, then clear `log_file`.  The first
component is the text appended to the sink. -/
def save_log (st : ChopperState) : String × ChopperState :=
  (st.log_file.foldl (fun acc line => acc ++ ("[" ++ line.msg ++ "] " ++ line.date)) "",
   { st with log_file := [] })

/-- Equality of driver results is decidable (used to evaluate the model on
concrete inputs). -/
instance (a b : Except ChopErr ℚ) : Decidable (a = b) :=
  match a, b with
  | Except.error x, Except.error y =>
    if h : x = y then isTrue (by rw [h]) else isFalse (fun hc => h (Except.error.inj hc))
  | Except.error x, Except.ok y => isFalse (fun hc => Except.noConfusion hc)
  | Except.ok x, Except.error y => isFalse (fun hc => Except.noConfusion hc)
  | Except.ok x, Except.ok y =>
    if h : x = y then isTrue (by rw [h]) else isFalse (fun hc => h (Except.ok.inj hc))

/-- The reply-slicing idiom `answer[len(command):-3]` shared by every
get-operation: skip `len(command)` bytes from the front, drop the last 3. -/
def replySlice (command answer : String) : String :=
  let rest := answer.data.drop command.data.length
  String.mk (rest.take (rest.length - 3))

/-- The decode step of a get-operation: `float(answer[len(command):-3])`,
raising `parseError` (Python `ValueError`) when the slice is not a number. -/
def decode (command answer : String) : Except ChopErr ℚ :=
  match pyFloat (replySlice command answer) with
  | none => Except.error ChopErr.parseError
  | some v => Except.ok v

/-- `CHOPPER.get_intfreq` (lines 148-157). -/
def get_intfreq (st : ChopperState) : ChopperState × Except ChopErr ℚ :=
  let command := "freq?\r"
  let st := _log_write st command Mode.write
  let st := ser_write st command
  let p := ser_read st 15
  let answer := p.1
  let st := _log_write p.2 answer Mode.read
  match decode command answer with
  | Except.error e => (st, Except.error e)
  | Except.ok rlvalue =>
    ({ st with Stat := { st.Stat with intfreq := some rlvalue } }, Except.ok rlvalue)

/-- `CHOPPER.set_intfreq` (lines 159-168): validate against the active range,
write `freq=<str(value)>\r`, discard one reply, then confirm via
`get_intfreq`. -/
def set_intfreq (st : ChopperState) (value : ℚ) : ChopperState × Except ChopErr ℚ :=
  if value < st._Range.intfreq.1 ∨ st._Range.intfreq.2 < value then
    (st, Except.error (ChopErr.rangeError value))
  else
    let command := "freq=" ++ pyStr value ++ "\r"
    let st := _log_write st command Mode.write
    let st := ser_write st command
    let p := ser_read st 15
    get_intfreq p.2

/-- `CHOPPER.get_blade` (lines 170-180): decode the blade reply, store it in
`Stat.blade`, then replace `_Range.intfreq` by `_Bladerange[int(rlvalue)]`.
As in Python, the `Stat` update happens before the table lookup, so an
out-of-table blade value leaves the cache updated but the range unchanged. -/
def get_blade (st : ChopperState) : ChopperState × Except ChopErr ℚ :=
  let command := "blade?\r"
  let st := _log_write st command Mode.write
  let st := ser_write st command
  let p := ser_read st 15
  let answer := p.1
  let st := _log_write p.2 answer Mode.read
  match decode command answer with
  | Except.error e => (st, Except.error e)
  | Except.ok rlvalue =>
    let st := { st with Stat := { st.Stat with blade := some rlvalue } }
    match pyGet _Bladerange (pyInt rlvalue) with
    | none => (st, Except.error ChopErr.indexError)
    | some rng =>
      ({ st with _Range := { st._Range with intfreq := rng } }, Except.ok rlvalue)

/-- `CHOPPER.set_blade` (lines 182-191): validate against the blade range,
write `blade=<str(int(value))>\r`, discard one reply, then confirm via
`get_intfreq` (not `get_blade`). -/
def set_blade (st : ChopperState) (value : ℚ) : ChopperState × Except ChopErr ℚ :=
  if value < st._Range.blade.1 ∨ st._Range.blade.2 < value then
    (st, Except.error (ChopErr.rangeError value))
  else
    let command := "blade=" ++ toString (pyInt value) ++ "\r"
    let st := _log_write st command Mode.write
    let st := ser_write st command
    let p := ser_read st 15
    get_intfreq p.2

/-- `CHOPPER.get_ref` (lines 193-202). -/
def get_ref (st : ChopperState) : ChopperState × Except ChopErr ℚ :=
  let command := "ref?\r"
  let st := _log_write st command Mode.write
  let st := ser_write st command
  let p := ser_read st 15
  let answer := p.1
  let st := _log_write p.2 answer Mode.read
  match decode command answer with
  | Except.error e => (st, Except.error e)
  | Except.ok rlvalue =>
    ({ st with Stat := { st.Stat with ref := some rlvalue } }, Except.ok rlvalue)

/-- `CHOPPER.set_ref` (lines 204-213). -/
def set_ref (st : ChopperState) (value : ℚ) : ChopperState × Except ChopErr ℚ :=
  if value < st._Range.ref.1 ∨ st._Range.ref.2 < value then
    (st, Except.error (ChopErr.rangeError value))
  else
    let command := "ref=" ++ toString (pyInt value) ++ "\r"
    let st := _log_write st command Mode.write
    let st := ser_write st command
    let p := ser_read st 15
    get_ref p.2

/-- `CHOPPER.get_status` (lines 215-224). -/
def get_status (st : ChopperState) : ChopperState × Except ChopErr ℚ :=
  let command := "enable?\r"
  let st := _log_write st command Mode.write
  let st := ser_write st command
  let p := ser_read st 15
  let answer := p.1
  let st := _log_write p.2 answer Mode.read
  match decode command answer with
  | Except.error e => (st, Except.error e)
  | Except.ok rlvalue =>
    ({ st with Stat := { st.Stat with status := some rlvalue } }, Except.ok rlvalue)

/-- `CHOPPER.get_exfreq` (lines 226-235). -/
def get_exfreq (st : ChopperState) : ChopperState × Except ChopErr ℚ :=
  let command := "input?\r"
  let st := _log_write st command Mode.write
  let st := ser_write st command
  let p := ser_read st 15
  let answer := p.1
  let st := _log_write p.2 answer Mode.read
  match decode command answer with
  | Except.error e => (st, Except.error e)
  | Except.ok rlvalue =>
    ({ st with Stat := { st.Stat with exfreq := some rlvalue } }, Except.ok rlvalue)

/-- `CHOPPER.start` (lines 237-241): log and write `enable=1\r`; no reply
is read. -/
def start (st : ChopperState) : ChopperState :=
  let command := "enable=1\r"
  let st := _log_write st command Mode.write
  ser_write st command

/-- `CHOPPER.stop` (lines 243-247): log and write `enable=0\r`. -/
def stop (st : ChopperState) : ChopperState :=
  let command := "enable=0\r"
  let st := _log_write st command Mode.write
  ser_write st command

/-- `CHOPPER.get_all` (lines 249-252): call the getters in the order of the
`Get` namedtuple fields minus `all` (status, intfreq, exfreq, blade, ref);
an exception in any stage propagates (later stages do not run).  Returns
`self.Stat` on success. -/
def get_all (st : ChopperState) : ChopperState × Except ChopErr StatTuple :=
  let p1 := get_status st
  match p1.2 with
  | Except.error e => (p1.1, Except.error e)
  | Except.ok _ =>
    let p2 := get_intfreq p1.1
    match p2.2 with
    | Except.error e => (p2.1, Except.error e)
    | Except.ok _ =>
      let p3 := get_exfreq p2.1
      match p3.2 with
      | Except.error e => (p3.1, Except.error e)
      | Except.ok _ =>
        let p4 := get_blade p3.1
        match p4.2 with
        | Except.error e => (p4.1, Except.error e)
        | Except.ok _ =>
          let p5 := get_ref p4.1
          match p5.2 with
          | Except.error e => (p5.1, Except.error e)
          | Except.ok _ => (p5.1, Except.ok p5.1.Stat)

/-- The controller state produced by `__init__` up to line 126: port opened
and configured, `"\r"` written, one reply consumed by `ser.read(100)`,
`log_file` empty, `_Range` at its default, `Stat` all-`None`.  (`__init__`
line 127 then runs `Get.all()`; see `chopper_init`.) -/
def init_state (script times : List String) (log : Bool) : ChopperState :=
  let st : ChopperState :=
    { pending := script, written := [], log := log, log_file := [], times := times,
      _Range := default_Range,
      Stat := { status := none, intfreq := none, exfreq := none, blade := none, ref := none } }
  let st := ser_write st "\r"
  (ser_read st 100).2

/-- The full `CHOPPER.__init__`: the line-126 state followed by the
`Get.all()` call of line 127. -/
def chopper_init (script times : List String) (log : Bool) :
    ChopperState × Except ChopErr StatTuple :=
  get_all (init_state script times log)

/-- The state-mutating operations of the controller, for reasoning about
sequences of calls. -/
inductive Op where
  | get_status
  | get_intfreq
  | get_exfreq
  | get_blade
  | get_ref
  | get_all
  | set_intfreq (v : ℚ)
  | set_blade (v : ℚ)
  | set_ref (v : ℚ)
  | start
  | stop

/-- The exception (if any) of an operation result. -/
def errOpt : Except ChopErr ℚ → Option ChopErr
  | Except.error e => some e
  | Except.ok _ => none

/-- Run one operation: resulting state plus the exception it raised, if any. -/
def runOp : Op → ChopperState → ChopperState × Option ChopErr
  | Op.get_status, st => let p := get_status st; (p.1, errOpt p.2)
  | Op.get_intfreq, st => let p := get_intfreq st; (p.1, errOpt p.2)
  | Op.get_exfreq, st => let p := get_exfreq st; (p.1, errOpt p.2)
  | Op.get_blade, st => let p := get_blade st; (p.1, errOpt p.2)
  | Op.get_ref, st => let p := get_ref st; (p.1, errOpt p.2)
  | Op.get_all, st =>
    let p := get_all st
    (p.1, match p.2 with
          | Except.error e => some e
          | Except.ok _ => none)
  | Op.set_intfreq v, st => let p := set_intfreq st v; (p.1, errOpt p.2)
  | Op.set_blade v, st => let p := set_blade st v; (p.1, errOpt p.2)
  | Op.set_ref v, st => let p := set_ref st v; (p.1, errOpt p.2)
  | Op.start, st => (start st, none)
  | Op.stop, st => (stop st, none)

/-- Run a sequence of operations; the Boolean is `true` when every operation
completed without an exception (an exception aborts the sequence, keeping the
state mutations made so far). -/
def runOps : List Op → ChopperState → ChopperState × Bool
  | [], st => (st, true)
  | op :: ops, st =>
    let p := runOp op st
    match p.2 with
    | some _ => (p.1, false)
    | none => runOps ops p.1

/-! Component lemmas for the transport and logging helpers. -/

@[simp] lemma ser_write_Stat (st : ChopperState) (s : String) :
    (ser_write st s).Stat = st.Stat := rfl

@[simp] lemma ser_write_Range (st : ChopperState) (s : String) :
    (ser_write st s)._Range = st._Range := rfl

@[simp] lemma ser_write_pending (st : ChopperState) (s : String) :
    (ser_write st s).pending = st.pending := rfl

@[simp] lemma ser_write_written (st : ChopperState) (s : String) :
    (ser_write st s).written = st.written ++ [s] := rfl

@[simp] lemma ser_write_log_file (st : ChopperState) (s : String) :
    (ser_write st s).log_file = st.log_file := rfl

@[simp] lemma ser_read_fst (st : ChopperState) (n : Nat) :
    (ser_read st n).1 = String.mk ((st.pending.headD "").data.take n) := rfl

@[simp] lemma ser_read_snd_Stat (st : ChopperState) (n : Nat) :
    (ser_read st n).2.Stat = st.Stat := rfl

@[simp] lemma ser_read_snd_Range (st : ChopperState) (n : Nat) :
    (ser_read st n).2._Range = st._Range := rfl

@[simp] lemma ser_read_snd_pending (st : ChopperState) (n : Nat) :
    (ser_read st n).2.pending = st.pending.tail := rfl

@[simp] lemma ser_read_snd_written (st : ChopperState) (n : Nat) :
    (ser_read st n).2.written = st.written := rfl

@[simp] lemma ser_read_snd_log_file (st : ChopperState) (n : Nat) :
    (ser_read st n).2.log_file = st.log_file := rfl

@[simp] lemma log_write_Stat (st : ChopperState) (s : String) (m : Mode) :
    (_log_write st s m).Stat = st.Stat := by
  unfold _log_write; split <;> rfl

@[simp] lemma log_write_Range (st : ChopperState) (s : String) (m : Mode) :
    (_log_write st s m)._Range = st._Range := by
  unfold _log_write; split <;> rfl

@[simp] lemma log_write_pending (st : ChopperState) (s : String) (m : Mode) :
    (_log_write st s m).pending = st.pending := by
  unfold _log_write; split <;> rfl

@[simp] lemma log_write_written (st : ChopperState) (s : String) (m : Mode) :
    (_log_write st s m).written = st.written := by
  unfold _log_write; split <;> rfl

/-- `decode` never raises anything but `parseError`. -/
lemma decode_error_eq (command answer : String) (e : ChopErr)
    (h : decode command answer = Except.error e) : e = ChopErr.parseError := by
  unfold decode at h
  rcases hp : pyFloat (replySlice command answer) with _ | v <;> rw [hp] at h
  · exact (Except.error.inj h).symm
  · exact absurd h (by simp)

/-- `get_intfreq` never raises a `rangeError`. -/
lemma get_intfreq_not_range (st : ChopperState) (v : ℚ) :
    (get_intfreq st).2 ≠ Except.error (ChopErr.rangeError v) := by
  unfold get_intfreq
  dsimp only
  split
  · rename_i e h hx
    intro hc
    have := decode_error_eq _ _ _ hx
    simp only [this] at hc
    exact absurd (Except.error.inj hc) (by simp)
  · simp

/-! Characterization of each getter when its reply decodes successfully. -/

lemma get_status_ok (st : ChopperState) (v : ℚ)
    (h : decode "enable?\r" (String.mk ((st.pending.headD "").data.take 15)) = Except.ok v) :
    (get_status st).2 = Except.ok v ∧
    (get_status st).1.Stat = { st.Stat with status := some v } ∧
    (get_status st).1._Range = st._Range ∧
    (get_status st).1.pending = st.pending.tail ∧
    (get_status st).1.written = st.written ++ ["enable?\r"] := by
  unfold get_status
  dsimp only
  rw [ser_read_fst, ser_write_pending, log_write_pending, h]
  refine ⟨rfl, ?_, ?_, ?_, ?_⟩ <;> simp

lemma get_intfreq_ok (st : ChopperState) (v : ℚ)
    (h : decode "freq?\r" (String.mk ((st.pending.headD "").data.take 15)) = Except.ok v) :
    (get_intfreq st).2 = Except.ok v ∧
    (get_intfreq st).1.Stat = { st.Stat with intfreq := some v } ∧
    (get_intfreq st).1._Range = st._Range ∧
    (get_intfreq st).1.pending = st.pending.tail ∧
    (get_intfreq st).1.written = st.written ++ ["freq?\r"] := by
  unfold get_intfreq
  dsimp only
  rw [ser_read_fst, ser_write_pending, log_write_pending, h]
  refine ⟨rfl, ?_, ?_, ?_, ?_⟩ <;> simp

lemma get_exfreq_ok (st : ChopperState) (v : ℚ)
    (h : decode "input?\r" (String.mk ((st.pending.headD "").data.take 15)) = Except.ok v) :
    (get_exfreq st).2 = Except.ok v ∧
    (get_exfreq st).1.Stat = { st.Stat with exfreq := some v } ∧
    (get_exfreq st).1._Range = st._Range ∧
    (get_exfreq st).1.pending = st.pending.tail ∧
    (get_exfreq st).1.written = st.written ++ ["input?\r"] := by
  unfold get_exfreq
  dsimp only
  rw [ser_read_fst, ser_write_pending, log_write_pending, h]
  refine ⟨rfl, ?_, ?_, ?_, ?_⟩ <;> simp

lemma get_ref_ok (st : ChopperState) (v : ℚ)
    (h : decode "ref?\r" (String.mk ((st.pending.headD "").data.take 15)) = Except.ok v) :
    (get_ref st).2 = Except.ok v ∧
    (get_ref st).1.Stat = { st.Stat with ref := some v } ∧
    (get_ref st).1._Range = st._Range ∧
    (get_ref st).1.pending = st.pending.tail ∧
    (get_ref st).1.written = st.written ++ ["ref?\r"] := by
  unfold get_ref
  dsimp only
  rw [ser_read_fst, ser_write_pending, log_write_pending, h]
  refine ⟨rfl, ?_, ?_, ?_, ?_⟩ <;> simp

lemma get_blade_ok (st : ChopperState) (v : ℚ) (rng : ℚ × ℚ)
    (h : decode "blade?\r" (String.mk ((st.pending.headD "").data.take 15)) = Except.ok v)
    (hg : pyGet _Bladerange (pyInt v) = some rng) :
    (get_blade st).2 = Except.ok v ∧
    (get_blade st).1.Stat = { st.Stat with blade := some v } ∧
    (get_blade st).1._Range = { st._Range with intfreq := rng } ∧
    (get_blade st).1.pending = st.pending.tail ∧
    (get_blade st).1.written = st.written ++ ["blade?\r"] := by
  unfold get_blade
  dsimp only
  rw [ser_read_fst, ser_write_pending, log_write_pending, h]
  dsimp only
  rw [hg]
  refine ⟨rfl, ?_, ?_, ?_, ?_⟩ <;> simp

/-- A getter whose reply does not decode raises `parseError`. -/
lemma get_intfreq_err (st : ChopperState)
    (h : decode "freq?\r" (String.mk ((st.pending.headD "").data.take 15)) =
      Except.error ChopErr.parseError) :
    (get_intfreq st).2 = Except.error ChopErr.parseError := by
  unfold get_intfreq
  dsimp only
  rw [ser_read_fst, ser_write_pending, log_write_pending, h]

/-! Frame lemmas: every operation except `get_blade` leaves the blade cache
and the whole active range set untouched. -/

lemma get_status_frame (st : ChopperState) :
    (get_status st).1.Stat.blade = st.Stat.blade ∧ (get_status st).1._Range = st._Range := by
  unfold get_status; dsimp only; split <;> simp

lemma get_intfreq_frame (st : ChopperState) :
    (get_intfreq st).1.Stat.blade = st.Stat.blade ∧ (get_intfreq st).1._Range = st._Range := by
  unfold get_intfreq; dsimp only; split <;> simp

lemma get_exfreq_frame (st : ChopperState) :
    (get_exfreq st).1.Stat.blade = st.Stat.blade ∧ (get_exfreq st).1._Range = st._Range := by
  unfold get_exfreq; dsimp only; split <;> simp

lemma get_ref_frame (st : ChopperState) :
    (get_ref st).1.Stat.blade = st.Stat.blade ∧ (get_ref st).1._Range = st._Range := by
  unfold get_ref; dsimp only; split <;> simp

lemma set_intfreq_frame (st : ChopperState) (v : ℚ) :
    (set_intfreq st v).1.Stat.blade = st.Stat.blade ∧
    (set_intfreq st v).1._Range = st._Range := by
  unfold set_intfreq; dsimp only; split
  · exact ⟨rfl, rfl⟩
  · refine ⟨?_, ?_⟩
    · rw [(get_intfreq_frame _).1]; simp
    · rw [(get_intfreq_frame _).2]; simp

lemma set_blade_frame (st : ChopperState) (v : ℚ) :
    (set_blade st v).1.Stat.blade = st.Stat.blade ∧
    (set_blade st v).1._Range = st._Range := by
  unfold set_blade; dsimp only; split
  · exact ⟨rfl, rfl⟩
  · refine ⟨?_, ?_⟩
    · rw [(get_intfreq_frame _).1]; simp
    · rw [(get_intfreq_frame _).2]; simp

lemma set_ref_frame (st : ChopperState) (v : ℚ) :
    (set_ref st v).1.Stat.blade = st.Stat.blade ∧
    (set_ref st v).1._Range = st._Range := by
  unfold set_ref; dsimp only; split
  · exact ⟨rfl, rfl⟩
  · refine ⟨?_, ?_⟩
    · rw [(get_ref_frame _).1]; simp
    · rw [(get_ref_frame _).2]; simp

lemma start_frame (st : ChopperState) :
    (start st).Stat.blade = st.Stat.blade ∧ (start st)._Range = st._Range := by
  unfold start; exact ⟨by simp, by simp⟩

lemma stop_frame (st : ChopperState) :
    (stop st).Stat.blade = st.Stat.blade ∧ (stop st)._Range = st._Range := by
  unfold stop; exact ⟨by simp, by simp⟩

/-- On success, `get_blade` leaves the blade cache and the installed
internal-frequency range consistent with each other. -/
lemma get_blade_inv (st : ChopperState) (v : ℚ)
    (h : (get_blade st).2 = Except.ok v) :
    decode "blade?\r" (String.mk ((st.pending.headD "").data.take 15)) = Except.ok v ∧
    ∃ rng, pyGet _Bladerange (pyInt v) = some rng := by
  unfold get_blade at h
  dsimp only at h
  rw [ser_read_fst, ser_write_pending, log_write_pending] at h
  rcases hdec : decode "blade?\r" (String.mk ((st.pending.headD "").data.take 15)) with e | rl
  · rw [hdec] at h; simp at h
  · rw [hdec] at h
    dsimp only at h
    rcases hg : pyGet _Bladerange (pyInt rl) with _ | rng
    · rw [hg] at h; simp at h
    · rw [hg] at h
      obtain rfl : rl = v := by simpa using h
      exact ⟨rfl, rng, hg⟩

lemma get_blade_success (st : ChopperState) (v : ℚ)
    (h : (get_blade st).2 = Except.ok v) :
    (get_blade st).1.Stat.blade = some v ∧
    pyGet _Bladerange (pyInt v) = some (get_blade st).1._Range.intfreq := by
  obtain ⟨hdec, rng, hg⟩ := get_blade_inv st v h
  obtain ⟨-, hstat, hrng, -, -⟩ := get_blade_ok st v rng hdec hg
  refine ⟨by rw [hstat], ?_⟩
  rw [hrng]
  exact hg

/-- The invariant of claim C5: the active internal-frequency range is the
one dictated by the most recently observed blade value, or the
construction-time default when blade was never observed. -/
def RangeConsistent (st : ChopperState) : Prop :=
  (st.Stat.blade = none → st._Range.intfreq = default_Range.intfreq) ∧
  ∀ b : ℚ, st.Stat.blade = some b → pyGet _Bladerange (pyInt b) = some st._Range.intfreq

lemma consistent_of_frame (st st' : ChopperState)
    (hb : st'.Stat.blade = st.Stat.blade) (hr : st'._Range.intfreq = st._Range.intfreq)
    (h : RangeConsistent st) : RangeConsistent st' := by
  refine ⟨fun hn => ?_, fun b hbb => ?_⟩
  · rw [hr]; exact h.1 (hb.symm.trans hn)
  · rw [hr]; exact h.2 b (hb.symm.trans hbb)

lemma consistent_of_blade (st' : ChopperState) (v : ℚ)
    (hb : st'.Stat.blade = some v)
    (hg : pyGet _Bladerange (pyInt v) = some st'._Range.intfreq) :
    RangeConsistent st' := by
  refine ⟨fun hn => ?_, fun b hbb => ?_⟩
  · rw [hb] at hn; exact absurd hn (by simp)
  · rw [hb] at hbb
    obtain rfl : v = b := by simpa using hbb
    exact hg

lemma get_all_consistent (st : ChopperState) (t : StatTuple) (h : RangeConsistent st)
    (hok : (get_all st).2 = Except.ok t) : RangeConsistent (get_all st).1 := by
  unfold get_all at hok ⊢
  dsimp only at hok ⊢
  rcases h1 : (get_status st).2 with e | v1
  · rw [h1] at hok; simp at hok
  · rw [h1] at hok
    have hc1 : RangeConsistent (get_status st).1 :=
      consistent_of_frame _ _ (get_status_frame st).1
        (by rw [(get_status_frame st).2]) h
    dsimp only at hok ⊢
    rcases h2 : (get_intfreq (get_status st).1).2 with e | v2
    · rw [h2] at hok; simp at hok
    · rw [h2] at hok
      have hc2 : RangeConsistent (get_intfreq (get_status st).1).1 :=
        consistent_of_frame _ _ (get_intfreq_frame _).1
          (by rw [(get_intfreq_frame _).2]) hc1
      dsimp only at hok ⊢
      rcases h3 : (get_exfreq (get_intfreq (get_status st).1).1).2 with e | v3
      · rw [h3] at hok; simp at hok
      · rw [h3] at hok
        have hc3 : RangeConsistent (get_exfreq (get_intfreq (get_status st).1).1).1 :=
          consistent_of_frame _ _ (get_exfreq_frame _).1
            (by rw [(get_exfreq_frame _).2]) hc2
        dsimp only at hok ⊢
        rcases h4 : (get_blade (get_exfreq (get_intfreq (get_status st).1).1).1).2 with e | v4
        · rw [h4] at hok; simp at hok
        · rw [h4] at hok
          have hc4 : RangeConsistent (get_blade (get_exfreq (get_intfreq (get_status st).1).1).1).1 := by
            have hs := get_blade_success _ _ h4
            exact consistent_of_blade _ v4 hs.1 hs.2
          dsimp only at hok ⊢
          rcases h5 : (get_ref (get_blade (get_exfreq (get_intfreq (get_status st).1).1).1).1).2
              with e | v5
          · rw [h5] at hok; simp at hok
          · dsimp only
            exact consistent_of_frame _ _ (get_ref_frame _).1
              (by rw [(get_ref_frame _).2]) hc4

lemma runOp_consistent (op : Op) (st : ChopperState) (h : RangeConsistent st)
    (hok : (runOp op st).2 = none) : RangeConsistent (runOp op st).1 := by
  cases op with
  | get_status =>
    unfold runOp
    dsimp only
    exact consistent_of_frame _ _ (get_status_frame st).1
      (by rw [(get_status_frame st).2]) h
  | get_intfreq =>
    unfold runOp
    dsimp only
    exact consistent_of_frame _ _ (get_intfreq_frame st).1
      (by rw [(get_intfreq_frame st).2]) h
  | get_exfreq =>
    unfold runOp
    dsimp only
    exact consistent_of_frame _ _ (get_exfreq_frame st).1
      (by rw [(get_exfreq_frame st).2]) h
  | get_ref =>
    unfold runOp
    dsimp only
    exact consistent_of_frame _ _ (get_ref_frame st).1
      (by rw [(get_ref_frame st).2]) h
  | get_blade =>
    unfold runOp at hok ⊢
    dsimp only at hok ⊢
    rcases hr : (get_blade st).2 with e | v <;> rw [hr] at hok
    · simp [errOpt] at hok
    · have hs := get_blade_success st v hr
      exact consistent_of_blade _ v hs.1 hs.2
  | get_all =>
    unfold runOp at hok ⊢
    dsimp only at hok ⊢
    rcases hr : (get_all st).2 with e | t <;> rw [hr] at hok
    · simp at hok
    · exact get_all_consistent st t h hr
  | set_intfreq v =>
    unfold runOp
    dsimp only
    exact consistent_of_frame _ _ (set_intfreq_frame st v).1
      (by rw [(set_intfreq_frame st v).2]) h
  | set_blade v =>
    unfold runOp
    dsimp only
    exact consistent_of_frame _ _ (set_blade_frame st v).1
      (by rw [(set_blade_frame st v).2]) h
  | set_ref v =>
    unfold runOp
    dsimp only
    exact consistent_of_frame _ _ (set_ref_frame st v).1
      (by rw [(set_ref_frame st v).2]) h
  | start =>
    unfold runOp
    dsimp only
    exact consistent_of_frame _ _ (start_frame st).1
      (by rw [(start_frame st).2]) h
  | stop =>
    unfold runOp
    dsimp only
    exact consistent_of_frame _ _ (stop_frame st).1
      (by rw [(stop_frame st).2]) h

lemma runOps_consistent (ops : List Op) (st : ChopperState) (h : RangeConsistent st)
    (hok : (runOps ops st).2 = true) : RangeConsistent (runOps ops st).1 := by
  induction ops generalizing st with
  | nil => exact h
  | cons op ops ih =>
    unfold runOps at hok ⊢
    dsimp only at hok ⊢
    rcases he : (runOp op st).2 with _ | e
    · rw [he] at hok
      dsimp only at hok ⊢
      exact ih _ (runOp_consistent op st h he) hok
    · rw [he] at hok
      simp at hok

lemma init_consistent (script times : List String) (log : Bool) :
    RangeConsistent (init_state script times log) := by
  refine ⟨fun _ => rfl, fun b hb => ?_⟩
  rw [show (init_state script times log).Stat.blade = none from rfl] at hb
  cases hb

lemma string_join_cons (s : String) (L : List String) :
    String.join (s :: L) = s ++ String.join L := by
  apply String.ext
  simp [String.data_join]

lemma save_log_foldl (l : List LogEntry) (acc : String) :
    l.foldl (fun a line => a ++ ("[" ++ line.msg ++ "] " ++ line.date)) acc =
      acc ++ String.join (l.map fun line => "[" ++ line.msg ++ "] " ++ line.date) := by
  induction l generalizing acc with
  | nil => simp [String.join]
  | cons x xs ih =>
    rw [List.foldl_cons, ih, List.map_cons, string_join_cons, String.append_assoc]

/-! The claim theorems. -/

/-- C8 (counterexample): the claim "at construction time the RangeSet's
internal-frequency entry equals the BladeRangeTable entry at index 0" is
false: the constructor installs (1.0, 1000.0) while the table's index-0
entry is (1.0, 99.0). -/
theorem spec_c8_counterexample :
    (init_state [] [] false)._Range.intfreq = (1, 1000) ∧
    _Bladerange.get? 0 = some (1, 99) ∧
    (init_state [] [] false)._Range.intfreq ≠ (1, 99) :=
  ⟨rfl, rfl, by decide⟩

/-- C8 (amended): at construction time, before any blade query, the
RangeSet's internal-frequency entry is initialized to the fixed default
(1.0, 1000.0) of `__init__` line 122, which differs from the BladeRangeTable
entry at index 0, (1.0, 99.0). -/
theorem spec_c8 (script times : List String) (log : Bool) :
    (init_state script times log)._Range.intfreq = (1, 1000) ∧
    _Bladerange.get? 0 = some (1, 99) :=
  ⟨rfl, rfl⟩

/-- C2 (counterexample): decoding the 6-byte command "freq?\r" against the
reply buffer "freq?63.00XXX" yields 3.0, not 63.0 as the claim states — the
6 skipped bytes cover the echoed "freq?" plus the first answer byte "6". -/
theorem spec_c2_counterexample :
    decode "freq?\r" "freq?63.00XXX" = Except.ok 3 ∧ (3 : ℚ) ≠ 63 :=
  ⟨by decide, by decide⟩

/-- C2 (amended): decoding the internal-frequency query with command
"freq?\r" (6 bytes) applied to the reply buffer "freq?63.00XXX" yields the
numeric value 3.0: the first 6 bytes (the command length, counting the
carriage return) are skipped, the last 3 bytes are dropped, and the
remaining "3.00" is parsed as a float; `get_intfreq` on this reply returns
and caches 3.0. -/
theorem spec_c2 :
    decode "freq?\r" "freq?63.00XXX" = Except.ok 3 ∧
    replySlice "freq?\r" "freq?63.00XXX" = "3.00" ∧
    pyFloat "3.00" = some 3 ∧
    (get_intfreq (init_state ["", "freq?63.00XXX"] [] false)).2 = Except.ok 3 ∧
    (get_intfreq (init_state ["", "freq?63.00XXX"] [] false)).1.Stat.intfreq = some 3 :=
  ⟨by decide, by decide, by decide, by decide, by decide⟩

/-- C3: for every reply buffer shorter than len(command)+3 bytes, or whose
middle slice (skip len(command) bytes, drop the last 3) is not a valid
number, the decode step raises parseError instead of returning a value;
in particular a get-operation (here get_intfreq) on such a buffer raises
parseError. -/
theorem spec_c3 (command answer : String)
    (h : answer.data.length < command.data.length + 3 ∨
         pyFloat (replySlice command answer) = none) :
    decode command answer = Except.error ChopErr.parseError ∧
    ∀ st : ChopperState, command = "freq?\r" → st.pending = answer :: st.pending.tail →
      answer.data.length ≤ 15 → (get_intfreq st).2 = Except.error ChopErr.parseError := by
  have hnone : pyFloat (replySlice command answer) = none := by
    rcases h with h | h
    · have hempty : replySlice command answer = "" := by
        unfold replySlice
        dsimp only
        have hlen : (answer.data.drop command.data.length).length - 3 = 0 := by
          rw [List.length_drop]; omega
        rw [hlen, List.take_zero]
      rw [hempty]
      decide
    · exact h
  have hdec : decode command answer = Except.error ChopErr.parseError := by
    unfold decode; rw [hnone]
  refine ⟨hdec, fun st hcmd hp hlen => ?_⟩
  apply get_intfreq_err
  have hbuf : String.mk ((st.pending.headD "").data.take 15) = answer := by
    rw [hp]
    show String.mk (answer.data.take 15) = answer
    rw [List.take_of_length_le hlen]
  rw [hbuf, ← hcmd]
  exact hdec

/-- C3 witness: the 5-byte buffer "freq?" is shorter than 6 + 3 bytes, so
decoding it against "freq?\r" raises parseError, also through get_intfreq. -/
theorem spec_c3_witness :
    decode "freq?\r" "freq?" = Except.error ChopErr.parseError ∧
    (get_intfreq (init_state ["", "freq?"] [] false)).2 =
      Except.error ChopErr.parseError := by
  have h := spec_c3 "freq?\r" "freq?" (Or.inl (by decide))
  exact ⟨h.1, h.2 (init_state ["", "freq?"] [] false) rfl rfl (by decide)⟩

/-- C4: for every value strictly below the minimum or strictly above the
maximum of the currently active range for the respective parameter, each of
set_intfreq, set_blade and set_ref returns the state completely
unchanged — nothing written to the transport, no cache or range mutation —
together with a rangeError carrying the offending value. -/
theorem spec_c4 (st : ChopperState) (v : ℚ) :
    ((v < st._Range.intfreq.1 ∨ st._Range.intfreq.2 < v) →
        set_intfreq st v = (st, Except.error (ChopErr.rangeError v))) ∧
    ((v < st._Range.blade.1 ∨ st._Range.blade.2 < v) →
        set_blade st v = (st, Except.error (ChopErr.rangeError v))) ∧
    ((v < st._Range.ref.1 ∨ st._Range.ref.2 < v) →
        set_ref st v = (st, Except.error (ChopErr.rangeError v))) := by
  refine ⟨fun h => ?_, fun h => ?_, fun h => ?_⟩
  · unfold set_intfreq; rw [if_pos h]
  · unfold set_blade; rw [if_pos h]
  · unfold set_ref; rw [if_pos h]

/-- C4 witness: 5000.0 is above all three active maxima of a fresh
controller, and each setter rejects it leaving the state untouched. -/
theorem spec_c4_witness :
    set_intfreq (init_state [] [] false) 5000 =
      (init_state [] [] false, Except.error (ChopErr.rangeError 5000)) ∧
    set_blade (init_state [] [] false) 5000 =
      (init_state [] [] false, Except.error (ChopErr.rangeError 5000)) ∧
    set_ref (init_state [] [] false) 5000 =
      (init_state [] [] false, Except.error (ChopErr.rangeError 5000)) :=
  ⟨(spec_c4 _ 5000).1 (Or.inr (by decide)),
   (spec_c4 _ 5000).2.1 (Or.inr (by decide)),
   (spec_c4 _ 5000).2.2 (Or.inr (by decide))⟩

/-- C1: whenever a blade query observes a value b (and b indexes the blade
table), get_blade stores b in the blade cache and replaces the active
internal-frequency range with exactly the BladeRangeTable entry at index
int(b); a subsequent set_intfreq validates its argument against this new
range — it raises rangeError exactly for values outside the new range. -/
theorem spec_c1 (st : ChopperState) (r : String) (rest : List String) (b : ℚ) (rng : ℚ × ℚ)
    (hp : st.pending = r :: rest)
    (hd : decode "blade?\r" (String.mk (r.data.take 15)) = Except.ok b)
    (hg : pyGet _Bladerange (pyInt b) = some rng) :
    (get_blade st).2 = Except.ok b ∧
    (get_blade st).1.Stat.blade = some b ∧
    (get_blade st).1._Range.intfreq = rng ∧
    ∀ v : ℚ,
      (set_intfreq (get_blade st).1 v).2 = Except.error (ChopErr.rangeError v) ↔
        (v < rng.1 ∨ rng.2 < v) := by
  have hd' : decode "blade?\r" (String.mk ((st.pending.headD "").data.take 15)) = Except.ok b := by
    rw [hp]; exact hd
  obtain ⟨hok, hstat, hrng, -, -⟩ := get_blade_ok st b rng hd' hg
  have hint : (get_blade st).1._Range.intfreq = rng := by rw [hrng]
  refine ⟨hok, by rw [hstat], hint, fun v => ?_⟩
  constructor
  · intro hres
    by_contra hout
    have hin : ¬ (v < (get_blade st).1._Range.intfreq.1 ∨
        (get_blade st).1._Range.intfreq.2 < v) := by
      rw [hint]; exact hout
    unfold set_intfreq at hres
    rw [if_neg hin] at hres
    dsimp only at hres
    exact get_intfreq_not_range _ v hres
  · intro hout
    have hout' : v < (get_blade st).1._Range.intfreq.1 ∨
        (get_blade st).1._Range.intfreq.2 < v := by
      rw [hint]; exact hout
    unfold set_intfreq
    rw [if_pos hout']

/-- C1 witness: a fresh controller observing blade 2.0 installs the range
(20.0, 1000.0) and set_intfreq then validates against it. -/
theorem spec_c1_witness :
    (get_blade (init_state ["", "blade?\r2.0XXX"] [] false)).2 = Except.ok 2 ∧
    (get_blade (init_state ["", "blade?\r2.0XXX"] [] false)).1.Stat.blade = some 2 ∧
    (get_blade (init_state ["", "blade?\r2.0XXX"] [] false)).1._Range.intfreq = (20, 1000) ∧
    ∀ v : ℚ,
      (set_intfreq (get_blade (init_state ["", "blade?\r2.0XXX"] [] false)).1 v).2 =
          Except.error (ChopErr.rangeError v) ↔
        (v < (20 : ℚ) ∨ (1000 : ℚ) < v) :=
  spec_c1 _ "blade?\r2.0XXX" [] 2 (20, 1000) rfl (by decide) (by decide)

/-- C6: after a successful set_blade(v), the follow-up query written to the
wire is the internal-frequency query "freq?\r" (not a blade query); the
returned and cached value is the confirmed internal frequency, while the
blade cache field and the whole active RangeSet are unchanged. -/
theorem spec_c6 (st : ChopperState) (v f : ℚ) (ack r : String) (rest : List String)
    (hrange : ¬ (v < st._Range.blade.1 ∨ st._Range.blade.2 < v))
    (hp : st.pending = ack :: r :: rest)
    (hd : decode "freq?\r" (String.mk (r.data.take 15)) = Except.ok f) :
    (set_blade st v).2 = Except.ok f ∧
    (set_blade st v).1.Stat.intfreq = some f ∧
    (set_blade st v).1.Stat.blade = st.Stat.blade ∧
    (set_blade st v).1._Range = st._Range ∧
    (set_blade st v).1.written =
      st.written ++ ["blade=" ++ toString (pyInt v) ++ "\r", "freq?\r"] := by
  unfold set_blade
  rw [if_neg hrange]
  dsimp only
  have hp1 : (ser_read (ser_write
      (_log_write st ("blade=" ++ toString (pyInt v) ++ "\r") Mode.write)
      ("blade=" ++ toString (pyInt v) ++ "\r")) 15).2.pending = r :: rest := by
    simp [hp]
  obtain ⟨hok, hstat, hrng, -, hw⟩ := get_intfreq_ok
    ((ser_read (ser_write
      (_log_write st ("blade=" ++ toString (pyInt v) ++ "\r") Mode.write)
      ("blade=" ++ toString (pyInt v) ++ "\r")) 15).2) f (by rw [hp1]; exact hd)
  refine ⟨hok, ?_, ?_, ?_, ?_⟩
  · rw [hstat]
  · rw [hstat]; simp
  · rw [hrng]; simp
  · rw [hw]; simp

/-- C6 witness: a fresh controller accepts set_blade(3.0); the wire then
carries "blade=3\r" followed by "freq?\r", the confirmed internal frequency
60.0 is returned and cached, and blade cache and RangeSet are unchanged. -/
theorem spec_c6_witness :
    (set_blade (init_state ["", "ACK", "freq?\r60.0XXX"] [] false) 3).2 = Except.ok 60 ∧
    (set_blade (init_state ["", "ACK", "freq?\r60.0XXX"] [] false) 3).1.Stat.intfreq = some 60 ∧
    (set_blade (init_state ["", "ACK", "freq?\r60.0XXX"] [] false) 3).1.Stat.blade =
      (init_state ["", "ACK", "freq?\r60.0XXX"] [] false).Stat.blade ∧
    (set_blade (init_state ["", "ACK", "freq?\r60.0XXX"] [] false) 3).1._Range =
      (init_state ["", "ACK", "freq?\r60.0XXX"] [] false)._Range ∧
    (set_blade (init_state ["", "ACK", "freq?\r60.0XXX"] [] false) 3).1.written =
      (init_state ["", "ACK", "freq?\r60.0XXX"] [] false).written ++
        ["blade=" ++ toString (pyInt 3) ++ "\r", "freq?\r"] :=
  spec_c6 _ 3 60 "ACK" "freq?\r60.0XXX" [] (by decide) rfl (by decide)

/-- C10: every v with v > 6.0 is rejected by set_blade with a rangeError
(the blade validation range being the fixed (0.0, 6.0) default), although
the blade range table has 8 entries, its index-7 entry is (10.0, 500.0),
and a blade value 7.0 observed via get_blade is accepted and installs that
entry — blade index 7 can be observed but never set. -/
theorem spec_c10 (st1 : ChopperState) (v : ℚ)
    (hbr : st1._Range.blade = default_Range.blade) (hv : 6 < v)
    (st2 : ChopperState) (r : String) (rest : List String)
    (hp : st2.pending = r :: rest)
    (hd : decode "blade?\r" (String.mk (r.data.take 15)) = Except.ok 7) :
    (set_blade st1 v).2 = Except.error (ChopErr.rangeError v) ∧
    _Bladerange.length = 8 ∧
    _Bladerange.get? 7 = some (10, 500) ∧
    (get_blade st2).2 = Except.ok 7 ∧
    (get_blade st2).1._Range.intfreq = (10, 500) := by
  have hout : v < st1._Range.blade.1 ∨ st1._Range.blade.2 < v := by
    right; rw [hbr]; exact hv
  have hd' : decode "blade?\r" (String.mk ((st2.pending.headD "").data.take 15)) =
      Except.ok 7 := by
    rw [hp]; exact hd
  obtain ⟨hok, -, hrng, -, -⟩ := get_blade_ok st2 7 (10, 500) hd' (by decide)
  refine ⟨?_, rfl, rfl, hok, by rw [hrng]⟩
  unfold set_blade
  rw [if_pos hout]

/-- C10 witness: set_blade(7.0) on a fresh controller raises rangeError,
while get_blade observing 7.0 succeeds and installs (10.0, 500.0). -/
theorem spec_c10_witness :
    (set_blade (init_state [] [] false) 7).2 = Except.error (ChopErr.rangeError 7) ∧
    _Bladerange.length = 8 ∧
    _Bladerange.get? 7 = some (10, 500) ∧
    (get_blade (init_state ["", "blade?\r7.0XXX"] [] false)).2 = Except.ok 7 ∧
    (get_blade (init_state ["", "blade?\r7.0XXX"] [] false)).1._Range.intfreq = (10, 500) :=
  spec_c10 (init_state [] [] false) 7 rfl (by decide)
    (init_state ["", "blade?\r7.0XXX"] [] false) "blade?\r7.0XXX" [] rfl (by decide)

/-- A concrete state with one recorded log entry and logging enabled,
used to exercise `save_log` and `_log_write`. -/
def log_demo : ChopperState :=
  { pending := [], written := [], log := true,
    log_file := [{ msg := ">>> freq?\r", date := "2015-06-01 12:00:00" }],
    times := ["2015-06-01 12:00:05"], _Range := default_Range,
    Stat := { status := none, intfreq := none, exfreq := none, blade := none, ref := none } }

/-- A fresh controller scripted with one reply per getter of `get_all`. -/
def c7_demo : ChopperState :=
  init_state ["", "enable?\r1.0XXX", "freq?\r50.0XXX", "input?\r20.0XXX",
    "blade?\r3.0XXX", "ref?\r0.0XXX"] [] false

/-- C5 (counterexample): the invariant does not hold after every sequence of
controller operations.  A get_blade whose reply decodes to the out-of-table
value 50.0 stores the observed value in the blade cache (line 178) and then
raises IndexError at the table lookup (line 179), leaving the previous
internal-frequency range: afterwards the blade cache holds 50.0 but no
BladeRangeTable entry for int(50.0) exists, and the range is still the
construction-time default. -/
theorem spec_c5_counterexample :
    (runOps [Op.get_blade] (init_state ["", "blade?50.0XXX"] [] false)).1.Stat.blade =
      some 50 ∧
    (runOps [Op.get_blade] (init_state ["", "blade?50.0XXX"] [] false)).1._Range.intfreq =
      default_Range.intfreq ∧
    pyGet _Bladerange (pyInt 50) = none ∧
    pyGet _Bladerange (pyInt 50) ≠
      some ((runOps [Op.get_blade]
        (init_state ["", "blade?50.0XXX"] [] false)).1._Range.intfreq) ∧
    (runOps [Op.get_blade] (init_state ["", "blade?50.0XXX"] [] false)).2 = false :=
  ⟨by decide, by decide, by decide, by decide, by decide⟩

/-- C5 (amended): after every sequence of controller operations in which no
operation raises an exception, the active internal-frequency range is
consistent with the most recently observed blade value: while blade was
never observed it still equals the construction-time default, and once the
blade cache holds b it equals the BladeRangeTable entry for int(b).  (The
restriction is forced by the counterexample: a get_blade reply decoding to
an out-of-table value caches it and then raises IndexError before the range
is replaced.) -/
theorem spec_c5 (script times : List String) (log : Bool) (ops : List Op)
    (h : (runOps ops (init_state script times log)).2 = true) :
    ((runOps ops (init_state script times log)).1.Stat.blade = none →
      (runOps ops (init_state script times log)).1._Range.intfreq =
        default_Range.intfreq) ∧
    ∀ b : ℚ, (runOps ops (init_state script times log)).1.Stat.blade = some b →
      pyGet _Bladerange (pyInt b) =
        some (runOps ops (init_state script times log)).1._Range.intfreq :=
  runOps_consistent ops _ (init_consistent script times log) h

/-- C5 witness: a single successful get_blade observing 7.0. -/
theorem spec_c5_witness :
    ((runOps [Op.get_blade] (init_state ["", "blade?\r7.0XXX"] [] false)).1.Stat.blade =
        none →
      (runOps [Op.get_blade] (init_state ["", "blade?\r7.0XXX"] [] false)).1._Range.intfreq =
        default_Range.intfreq) ∧
    ∀ b : ℚ,
      (runOps [Op.get_blade] (init_state ["", "blade?\r7.0XXX"] [] false)).1.Stat.blade =
          some b →
        pyGet _Bladerange (pyInt b) =
          some (runOps [Op.get_blade]
            (init_state ["", "blade?\r7.0XXX"] [] false)).1._Range.intfreq :=
  spec_c5 ["", "blade?\r7.0XXX"] [] false [Op.get_blade] (by decide)

/-- C7: get_all runs get_status, get_intfreq, get_exfreq, get_blade and
get_ref in exactly that order (witnessed by the order of the five query
strings on the wire), and afterwards each of the five cache fields holds the
value decoded from the corresponding reply; the blade stage also installs
the blade-table range. -/
theorem spec_c7 (st : ChopperState) (r1 r2 r3 r4 r5 : String) (rest : List String)
    (s f e b m : ℚ) (rng : ℚ × ℚ)
    (hp : st.pending = r1 :: r2 :: r3 :: r4 :: r5 :: rest)
    (h1 : decode "enable?\r" (String.mk (r1.data.take 15)) = Except.ok s)
    (h2 : decode "freq?\r" (String.mk (r2.data.take 15)) = Except.ok f)
    (h3 : decode "input?\r" (String.mk (r3.data.take 15)) = Except.ok e)
    (h4 : decode "blade?\r" (String.mk (r4.data.take 15)) = Except.ok b)
    (hg : pyGet _Bladerange (pyInt b) = some rng)
    (h5 : decode "ref?\r" (String.mk (r5.data.take 15)) = Except.ok m) :
    (get_all st).1.Stat.status = some s ∧
    (get_all st).1.Stat.intfreq = some f ∧
    (get_all st).1.Stat.exfreq = some e ∧
    (get_all st).1.Stat.blade = some b ∧
    (get_all st).1.Stat.ref = some m ∧
    (get_all st).1._Range.intfreq = rng ∧
    (get_all st).2 = Except.ok (get_all st).1.Stat ∧
    (get_all st).1.written =
      st.written ++ ["enable?\r", "freq?\r", "input?\r", "blade?\r", "ref?\r"] := by
  obtain ⟨k1ok, k1stat, k1rng, k1p, k1w⟩ := get_status_ok st s (by rw [hp]; exact h1)
  obtain ⟨k2ok, k2stat, k2rng, k2p, k2w⟩ :=
    get_intfreq_ok (get_status st).1 f (by rw [k1p, hp]; exact h2)
  obtain ⟨k3ok, k3stat, k3rng, k3p, k3w⟩ :=
    get_exfreq_ok (get_intfreq (get_status st).1).1 e (by rw [k2p, k1p, hp]; exact h3)
  obtain ⟨k4ok, k4stat, k4rng, k4p, k4w⟩ :=
    get_blade_ok (get_exfreq (get_intfreq (get_status st).1).1).1 b rng
      (by rw [k3p, k2p, k1p, hp]; exact h4) hg
  obtain ⟨k5ok, k5stat, k5rng, k5p, k5w⟩ :=
    get_ref_ok (get_blade (get_exfreq (get_intfreq (get_status st).1).1).1).1 m
      (by rw [k4p, k3p, k2p, k1p, hp]; exact h5)
  have hall : get_all st =
      ((get_ref (get_blade (get_exfreq (get_intfreq (get_status st).1).1).1).1).1,
        Except.ok
          (get_ref (get_blade (get_exfreq (get_intfreq (get_status st).1).1).1).1).1.Stat) := by
    unfold get_all
    dsimp only
    rw [k1ok]
    dsimp only
    rw [k2ok]
    dsimp only
    rw [k3ok]
    dsimp only
    rw [k4ok]
    dsimp only
    rw [k5ok]
  rw [hall]
  dsimp only
  refine ⟨?_, ?_, ?_, ?_, ?_, ?_, rfl, ?_⟩
  · simp [k5stat, k4stat, k3stat, k2stat, k1stat]
  · simp [k5stat, k4stat, k3stat, k2stat]
  · simp [k5stat, k4stat, k3stat]
  · simp [k5stat, k4stat]
  · simp [k5stat]
  · simp [k5rng, k4rng]
  · simp [k5w, k4w, k3w, k2w, k1w]

/-- C7 witness: a full get_all round-trip with concrete replies 1.0, 50.0,
20.0, 3.0 and 0.0 for status, intfreq, exfreq, blade and ref. -/
theorem spec_c7_witness :
    (get_all c7_demo).1.Stat.status = some 1 ∧
    (get_all c7_demo).1.Stat.intfreq = some 50 ∧
    (get_all c7_demo).1.Stat.exfreq = some 20 ∧
    (get_all c7_demo).1.Stat.blade = some 3 ∧
    (get_all c7_demo).1.Stat.ref = some 0 ∧
    (get_all c7_demo).1._Range.intfreq = (30, 1500) ∧
    (get_all c7_demo).2 = Except.ok (get_all c7_demo).1.Stat ∧
    (get_all c7_demo).1.written =
      c7_demo.written ++ ["enable?\r", "freq?\r", "input?\r", "blade?\r", "ref?\r"] :=
  spec_c7 c7_demo "enable?\r1.0XXX" "freq?\r50.0XXX" "input?\r20.0XXX" "blade?\r3.0XXX"
    "ref?\r0.0XXX" [] 1 50 20 3 0 (30, 1500) rfl (by decide) (by decide) (by decide)
    (by decide) (by decide) (by decide)

/-- C9 (counterexample): `save_log` writes an entry for the outgoing payload
"freq?\r" with timestamp "2015-06-01 12:00:00" as
"[>>> freq?\r] 2015-06-01 12:00:00" — direction marker and payload inside the
brackets and the timestamp after them — not in the claimed shape
`[<direction-marker>][<timestamp>] <payload>`. -/
theorem spec_c9_counterexample :
    (save_log log_demo).1 = "[>>> freq?\r] 2015-06-01 12:00:00" ∧
    "[>>> freq?\r] 2015-06-01 12:00:00" ≠ "[>>>][2015-06-01 12:00:00] freq?\r" ∧
    "[>>> freq?\r] 2015-06-01 12:00:00" ≠ "[>>> ][2015-06-01 12:00:00] freq?\r" :=
  ⟨by decide, by decide, by decide⟩

/-- C9 (amended): for every log state, `save_log` writes all accumulated log
entries to the sink in append order, each formatted
`[<direction-marker> <payload>] <timestamp>`, and afterwards the in-memory
log is empty; a write-direction entry recorded by `_log_write` with logging
enabled is appended with marker ">>> " and the current timestamp. -/
theorem spec_c9 (st : ChopperState) (s : String) :
    (save_log st).1 =
      String.join (st.log_file.map fun line => "[" ++ line.msg ++ "] " ++ line.date) ∧
    (save_log st).2.log_file = [] ∧
    (st.log = true →
      (save_log (_log_write st s Mode.write)).1 =
        (save_log st).1 ++ ("[>>> " ++ s ++ "] " ++ st.times.headD "")) := by
  refine ⟨?_, rfl, fun hlog => ?_⟩
  · unfold save_log
    dsimp only
    rw [save_log_foldl, String.empty_append]
  · unfold _log_write
    rw [if_pos hlog]
    unfold save_log
    dsimp only
    rw [List.foldl_append]
    dsimp only [List.foldl]
    rw [← String.append_assoc "[" ">>> " s,
      show ("[" ++ ">>> " : String) = "[>>> " from by decide]

/-- C9 witness: flushing after logging "ref?\r" appends exactly one
formatted line. -/
theorem spec_c9_witness :
    (save_log (_log_write log_demo "ref?\r" Mode.write)).1 =
      (save_log log_demo).1 ++ ("[>>> " ++ "ref?\r" ++ "] " ++ log_demo.times.headD "") :=
  (spec_c9 log_demo "ref?\r").2.2 rfl

end ChopperModel
